import Mathlib

/-!
The queue monitor kolejka-duw (`main.go`).

A shallow embedding of the scheduler's calendar gate, the Telegram notifier, the two
save routines and the fetch-process-persist cycle of `main.go`, followed by the
properties proved about them.

Conventions of the embedding.

* Go `int` values are only compared, never computed with, so they are `Int`.
* A Go `error` result is an `Option String`: `none` is `nil`.
* The collaborators of the program (clock, zone database, environment variables,
  HTTP transport, PostgreSQL server) answer through the fields of `Host` and `Env`;
  every theorem quantifies over all of them.
* A `World` carries the two tables, the log, and the ordered record of the calls
  the program made to its collaborators.
-/

set_option autoImplicit false

namespace KolejkaDuw

/-! ## Calendar gate -/

/-- Go `time.Weekday`, in the order of its constants. -/
inductive Weekday
  | Sunday
  | Monday
  | Tuesday
  | Wednesday
  | Thursday
  | Friday
  | Saturday
  deriving DecidableEq, Repr

/-- A loaded `*time.Location`: how an instant reads in that zone
(`t.In(loc).Hour()` and `t.In(loc).Weekday()`). Instants are `Nat`s. -/
structure Location where
  hourOf : Nat → Int
  weekdayOf : Nat → Weekday

/-- The zone database as one call of `time.LoadLocation` finds it: the answer to
`time.LoadLocation name`, with `none` for an error. Each call has its own. -/
structure Host where
  LoadLocation : String → Option Location

/-- The function `isWithinWorkingHours` (main.go 186-200); `now` is what `time.Now()`
returns in it. -/
def isWithinWorkingHours (host : Host) (now : Nat) (startHour endHour : Int) : Bool :=
  match host.LoadLocation "Europe/Warsaw" with
  | none => false
  | some warsawTZ =>
    let currentHour := warsawTZ.hourOf now
    decide (currentHour ≥ startHour) && decide (currentHour < endHour)

/-- The function `isWeekend` (main.go 417-427); `now` is what `time.Now()` returns in it. -/
def isWeekend (host : Host) (now : Nat) : Bool :=
  match host.LoadLocation "Europe/Warsaw" with
  | none => false
  | some warsawTZ =>
    let day := warsawTZ.weekdayOf now
    decide (day = Weekday.Saturday) || decide (day = Weekday.Sunday)

/-- What one tick of the scheduler does. -/
inductive TickAction
  | launch
  | skipWeekend
  | skipOutsideHours
  deriving DecidableEq, Repr

/-- The body of the `case <-ticker.C` branch of `startMonitoring` (main.go 225-235).
`isWithinWorkingHours` loads the zone and reads the clock on its own (`host1`, `now1`), and
so does `isWeekend` after it (`host2`, `now2`); `launch` stands for
`go fetchAndSaveData()`. -/
def tick (host1 host2 : Host) (startHour endHour : Int) (now1 now2 : Nat) : TickAction :=
  if isWithinWorkingHours host1 now1 startHour endHour then
    if !isWeekend host2 now2 then TickAction.launch
    else TickAction.skipWeekend
  else TickAction.skipOutsideHours

/-- The loop of `startMonitoring` over a finite run of ticks; each tick comes with what
`isWithinWorkingHours` finds (zone database and clock) and what `isWeekend` finds. -/
def startMonitoring (startHour endHour : Int) (ticks : List ((Host × Nat) × (Host × Nat))) :
    List TickAction :=
  ticks.map (fun t => tick t.1.1 t.2.1 startHour endHour t.1.2 t.2.2)

/-! ## Data model -/

/-- Go `Operation` (main.go 66-70). -/
structure Operation where
  ID : String
  Name : String
  Enabled : Bool
  deriving DecidableEq, Repr

/-- Go `QueueItem` (main.go 48-64); the `*int` fields are `Option Int`. -/
structure QueueItem where
  ID : Int
  Name : String
  Operations : List Operation
  TicketCount : Int
  TicketsServed : Int
  Workplaces : Int
  AverageWaitTime : Option Int
  AverageServiceTime : Option Int
  RegisteredTickets : Int
  MaxTickets : Option Int
  TicketValue : String
  Active : Bool
  Location : String
  TicketsLeft : Int
  Enabled : Bool
  deriving DecidableEq, Repr

/-- The fifteen columns an `INSERT` of main.go supplies, in the order of its column list
(main.go 360-364 and 382-386). `tickets_left` is a nullable `INTEGER` that the lookup
scans into a `sql.NullInt64`, so it is an `Option Int` here. -/
structure Columns where
  queue_id : Int
  name : String
  location : String
  ticket_count : Int
  tickets_served : Int
  workplaces : Int
  average_wait_time : Option Int
  average_service_time : Option Int
  registered_tickets : Int
  max_tickets : Option Int
  ticket_value : String
  active : Bool
  tickets_left : Option Int
  enabled : Bool
  operations : String
  deriving DecidableEq, Repr

/-- A stored row of `odbior_karty` or `odbior_karty_wieczory` (main.go 119-160): the
supplied columns plus the server-assigned `id SERIAL` and
`created_at TIMESTAMP DEFAULT CURRENT_TIMESTAMP`. -/
structure Row where
  id : Nat
  cols : Columns
  created_at : Nat
  deriving DecidableEq, Repr

/-- The two tables. -/
inductive Table
  | odbior_karty
  | odbior_karty_wieczory
  deriving DecidableEq, Repr

/-- One call of the program to a collaborator, as recorded in `World.calls`. -/
inductive Event
  /-- The function `sendTelegramMessage` was entered with `text`: one attempted
  notification. -/
  | notify (text : String)
  /-- The call `http.PostForm(apiURL, form)` was issued, `form` holding `chat_id` and
  `text`. -/
  | httpPost (apiURL chatId text : String)
  /-- The `SELECT tickets_left FROM odbior_karty ...` of main.go 329-335 was issued. -/
  | selectPrev (queueId : Int) (location : String)
  /-- An `INSERT` into the given table was issued with these column values. -/
  | insert (table : Table) (cols : Columns)
  deriving DecidableEq, Repr

/-- The state the program acts on: the contents of the two tables, the calls made so far
(oldest first) and the lines written with `log.Printf` and `log.Println`. -/
structure World where
  odbior_karty : List Row
  odbior_karty_wieczory : List Row
  calls : List Event
  logs : List String
  deriving DecidableEq, Repr

/-- The collaborators. Each answer may depend on the calls made so far, so successive
calls can be answered differently.

* `TELEGRAM_BOT_TOKEN`, `TELEGRAM_CHAT_ID`: `os.Getenv` of these keys.
* `encodeOperations`: the text `json.Marshal` produces for a `[]Operation`.
* `postForm`: the outcome of `http.PostForm`, a transport error or the status code.
* `queryFault`: an error of `QueryRow(...).Scan` other than `sql.ErrNoRows`.
* `tieBreak`: which of the rows sharing the greatest `created_at` the server puts first
  under `ORDER BY created_at DESC` (an index into them, taken modulo their number).
* `execInsert`: the verdict of the server on an `INSERT`: an error, or the `id` and
  `created_at` it assigns to the new row. -/
structure Env where
  TELEGRAM_BOT_TOKEN : String
  TELEGRAM_CHAT_ID : String
  encodeOperations : List Operation → String
  postForm : List Event → String → String → String → Except String Int
  queryFault : List Event → Option String
  tieBreak : List Row → Nat
  execInsert : List Event → Table → Columns → Except String (Nat × Nat)

/-- Append a line to the log. -/
def World.log (w : World) (line : String) : World :=
  { w with logs := w.logs ++ [line] }

/-- Record a call. -/
def World.record (w : World) (e : Event) : World :=
  { w with calls := w.calls ++ [e] }

/-- The rows of a table. -/
def World.rows (w : World) : Table → List Row
  | Table.odbior_karty => w.odbior_karty
  | Table.odbior_karty_wieczory => w.odbior_karty_wieczory

/-- Append a row to a table. -/
def World.append (w : World) (t : Table) (r : Row) : World :=
  match t with
  | Table.odbior_karty => { w with odbior_karty := w.odbior_karty ++ [r] }
  | Table.odbior_karty_wieczory =>
    { w with odbior_karty_wieczory := w.odbior_karty_wieczory ++ [r] }

/-- The texts of the attempted notifications among some calls, in order. -/
def notifications : List Event → List String
  | [] => []
  | Event.notify text :: es => text :: notifications es
  | _ :: es => notifications es

/-- The outbound HTTP posts among some calls, in order. -/
def httpPosts : List Event → List Event
  | [] => []
  | Event.httpPost u c t :: es => Event.httpPost u c t :: httpPosts es
  | _ :: es => httpPosts es

/-- The latest-record lookups among some calls, in order. -/
def lookups : List Event → List Event
  | [] => []
  | Event.selectPrev q l :: es => Event.selectPrev q l :: lookups es
  | _ :: es => lookups es

/-- The `INSERT`s among some calls, in order. -/
def inserts : List Event → List Event
  | [] => []
  | Event.insert t c :: es => Event.insert t c :: inserts es
  | _ :: es => inserts es

/-! ## Notifier -/

/-- The function `sendTelegramMessage` (main.go 430-453). -/
def sendTelegramMessage (env : Env) (w : World) (text : String) : World × Option String :=
  let w := w.record (Event.notify text)
  let botToken := env.TELEGRAM_BOT_TOKEN
  let chatID := env.TELEGRAM_CHAT_ID
  if botToken = "" ∨ chatID = "" then
    (w.log ("Telegram not configured (TELEGRAM_BOT_TOKEN/TELEGRAM_CHAT_ID missing), " ++
      "skipping message: " ++ text), none)
  else
    let apiURL := "https://api.telegram.org/bot" ++ botToken ++ "/sendMessage"
    let resp := env.postForm w.calls apiURL chatID text
    let w := w.record (Event.httpPost apiURL chatID text)
    match resp with
    | Except.error err => (w, some err)
    | Except.ok statusCode =>
      if statusCode < 200 ∨ statusCode ≥ 300 then
        (w, some ("telegram sendMessage failed with status " ++ toString statusCode))
      else (w, none)

/-! ## Snapshot store -/

/-- Go `sql.NullInt64`. -/
structure NullInt64 where
  Int64 : Int
  Valid : Bool
  deriving DecidableEq, Repr

/-- The rows selected by `WHERE queue_id = $1 AND location = $2`. -/
def matchingRows (rows : List Row) (queueId : Int) (location : String) : List Row :=
  rows.filter (fun r => decide (r.cols.queue_id = queueId) && decide (r.cols.location = location))

/-- The rows that may come first under `ORDER BY created_at DESC`: those whose
`created_at` no other row of the list exceeds. -/
def newestRows (rows : List Row) : List Row :=
  rows.filter (fun r => rows.all (fun r2 => decide (r2.created_at ≤ r.created_at)))

/-- The row the `SELECT ... ORDER BY created_at DESC LIMIT 1` of main.go 329-334 returns,
`none` when no row matches. -/
def selectLatest (env : Env) (rows : List Row) (queueId : Int) (location : String) :
    Option Row :=
  let newest := newestRows (matchingRows rows queueId location)
  newest[env.tieBreak newest % newest.length]?

/-- The lookup of main.go 327-339: `QueryRow(prevQuery, item.ID, location).Scan(&prevTicketsLeft)`.
On `sql.ErrNoRows` nothing is logged and the value stays invalid; on another error the
error is logged and the value stays invalid; a `NULL` scans as invalid. -/
def queryPrevTicketsLeft (env : Env) (w : World) (queueId : Int) (location : String) :
    World × NullInt64 :=
  let fault := env.queryFault w.calls
  let w := w.record (Event.selectPrev queueId location)
  match fault with
  | some err => (w.log ("failed to get previous tickets_left: " ++ err), ⟨0, false⟩)
  | none =>
    match selectLatest env w.odbior_karty queueId location with
    | none => (w, ⟨0, false⟩)
    | some r =>
      match r.cols.tickets_left with
      | none => (w, ⟨0, false⟩)
      | some v => (w, ⟨v, true⟩)

/-- The call `json.Marshal(item.Operations)`. `Operation` has only string and bool fields, for
which `encoding/json` reports no error, so the result is always `ok`. -/
def jsonMarshal (env : Env) (ops : List Operation) : Except String String :=
  Except.ok (env.encodeOperations ops)

/-- The argument list of `db.Exec(query, item.ID, item.Name, location, ...)`
(main.go 366-370 and 388-392). -/
def insertArgs (item : QueueItem) (location : String) (operationsJSON : String) : Columns :=
  { queue_id := item.ID
    name := item.Name
    location := location
    ticket_count := item.TicketCount
    tickets_served := item.TicketsServed
    workplaces := item.Workplaces
    average_wait_time := item.AverageWaitTime
    average_service_time := item.AverageServiceTime
    registered_tickets := item.RegisteredTickets
    max_tickets := item.MaxTickets
    ticket_value := item.TicketValue
    active := item.Active
    tickets_left := some item.TicketsLeft
    enabled := item.Enabled
    operations := operationsJSON }

/-- The call `db.Exec` of an `INSERT`: the statement is issued; on success the table gains one row
carrying the supplied columns and the assigned `id` and `created_at`. -/
def dbExecInsert (env : Env) (w : World) (t : Table) (cols : Columns) : World × Option String :=
  let verdict := env.execInsert w.calls t cols
  let w := w.record (Event.insert t cols)
  match verdict with
  | Except.error err => (w, some err)
  | Except.ok (id, createdAt) => (w.append t ⟨id, cols, createdAt⟩, none)

/-- The "tickets appeared" text of main.go 345. -/
def appearedMessage (location : String) (id ticketsLeft : Int) : String :=
  "🎉 Внимание! Появились талоны по услуге \"получение карты\" в " ++ location ++
    " (очередь " ++ toString id ++ "). Доступно: " ++ toString ticketsLeft ++ " ✅"

/-- The "tickets finished" text of main.go 352. -/
def exhaustedMessage (location : String) (id : Int) : String :=
  "⛔️ Талоны по услуге \"получение карты\" закончились в " ++ location ++
    " (очередь " ++ toString id ++ ")."

/-- The call pattern of main.go 346-348 and 353-355: send, and log a failure without
returning it. -/
def sendAndLog (env : Env) (w : World) (message : String) : World :=
  match sendTelegramMessage env w message with
  | (w, some err) => w.log ("failed to send Telegram notification: " ++ err)
  | (w, none) => w

/-- The transition block of main.go 341-357. -/
def notifyTransitions (env : Env) (w : World) (prevTicketsLeft : NullInt64)
    (item : QueueItem) (location : String) : World :=
  if prevTicketsLeft.Valid then
    let w :=
      if prevTicketsLeft.Int64 ≤ 0 ∧ item.TicketsLeft > 0 then
        sendAndLog env w (appearedMessage location item.ID item.TicketsLeft)
      else w
    if prevTicketsLeft.Int64 > 0 ∧ item.TicketsLeft ≤ 0 then
      sendAndLog env w (exhaustedMessage location item.ID)
    else w
  else w

/-- The function `saveOdbiorkartyEvent` (main.go 321-373). -/
def saveOdbiorkartyEvent (env : Env) (w : World) (item : QueueItem) (location : String) :
    World × Option String :=
  match jsonMarshal env item.Operations with
  | Except.error err => (w, some ("failed to marshal operations: " ++ err))
  | Except.ok operationsJSON =>
    let (w, prevTicketsLeft) := queryPrevTicketsLeft env w item.ID location
    let w := notifyTransitions env w prevTicketsLeft item location
    dbExecInsert env w Table.odbior_karty (insertArgs item location operationsJSON)

/-- The function `saveOdbiorkartyWieczoryEvent` (main.go 375-395). -/
def saveOdbiorkartyWieczoryEvent (env : Env) (w : World) (item : QueueItem)
    (location : String) : World × Option String :=
  match jsonMarshal env item.Operations with
  | Except.error err => (w, some ("failed to marshal operations: " ++ err))
  | Except.ok operationsJSON =>
    dbExecInsert env w Table.odbior_karty_wieczory (insertArgs item location operationsJSON)

/-! ## Cycle -/

/-- The body of the inner loop of `fetchAndSaveData` (main.go 251-265). -/
def processItem (env : Env) (location : String) (w : World) (item : QueueItem) : World :=
  let w :=
    if item.Name = "odbiór karty" then
      match saveOdbiorkartyEvent env w item location with
      | (w, some err) => w.log ("Error saving odbiór karty event: " ++ err)
      | (w, none) => w
    else w
  if item.Name = "Odbiór karty - wieczory" then
    match saveOdbiorkartyWieczoryEvent env w item location with
    | (w, some err) => w.log ("Error saving Odbiór karty - wieczory event: " ++ err)
    | (w, none) => w
  else w

/-- The two nested loops of main.go 250-266 over `queueData.Result`, given as the
`(location, items)` pairs in the order the `range` visits them. -/
def processResult (env : Env) (w : World) (result : List (String × List QueueItem)) : World :=
  result.foldl (fun acc entry => entry.2.foldl (processItem env entry.1) acc) w

/-- The function `fetchAndSaveData` (main.go 239-269); `fetched` is what `fetchQueueData()`
returned. -/
def fetchAndSaveData (env : Env) (w : World)
    (fetched : Except String (List (String × List QueueItem))) : World :=
  let w := w.log "Fetching queue data..."
  match fetched with
  | Except.error err => w.log ("Error fetching queue data: " ++ err)
  | Except.ok result => (processResult env w result).log "Data saved successfully"

/-- Whether `fetchAndSaveData` acts on an item: its name is one of the two literals of
main.go 253 and 260. -/
def monitored (item : QueueItem) : Bool :=
  decide (item.Name = "odbiór karty") || decide (item.Name = "Odbiór karty - wieczory")

/-! ## Call records of the routines -/

/-- The calls one `sendTelegramMessage env text` makes: the attempt, then one post when
both credentials are set. -/
def sendCalls (env : Env) (text : String) : List Event :=
  Event.notify text ::
    (if env.TELEGRAM_BOT_TOKEN = "" ∨ env.TELEGRAM_CHAT_ID = "" then []
     else [Event.httpPost ("https://api.telegram.org/bot" ++ env.TELEGRAM_BOT_TOKEN ++
       "/sendMessage") env.TELEGRAM_CHAT_ID text])

/-- The calls the transition block makes for a scanned prior value. -/
def transitionCalls (env : Env) (prevTicketsLeft : NullInt64) (item : QueueItem)
    (location : String) : List Event :=
  if prevTicketsLeft.Valid = true then
    (if prevTicketsLeft.Int64 ≤ 0 ∧ item.TicketsLeft > 0 then
      sendCalls env (appearedMessage location item.ID item.TicketsLeft) else []) ++
    (if prevTicketsLeft.Int64 > 0 ∧ item.TicketsLeft ≤ 0 then
      sendCalls env (exhaustedMessage location item.ID) else [])
  else []

/-- The row an `INSERT` leaves in its table, if any, given the verdict of the server. -/
def insertedRows (verdict : Except String (Nat × Nat)) (cols : Columns) : List Row :=
  match verdict with
  | Except.error _ => []
  | Except.ok (id, createdAt) => [⟨id, cols, createdAt⟩]

/-- The Go error an `INSERT` returns, given the verdict of the server. -/
def insertError (verdict : Except String (Nat × Nat)) : Option String :=
  match verdict with
  | Except.error err => some err
  | Except.ok _ => none

/-! ## Sample collaborators -/

/-- A zone in which every instant reads as the given hour and weekday. -/
def fixedZone (hour : Int) (day : Weekday) : Location :=
  { hourOf := fun _ => hour, weekdayOf := fun _ => day }

/-- A machine whose zone database holds Europe/Warsaw only, reading as `tz`. -/
def hostWith (tz : Location) : Host :=
  { LoadLocation := fun name => if name = "Europe/Warsaw" then some tz else none }

/-- A machine without a zone database. -/
def hostNoZones : Host :=
  { LoadLocation := fun _ => none }

/-- A queue item with the given name, id and `tickets_left`. -/
def sampleItem (name : String) (id ticketsLeft : Int) : QueueItem :=
  { ID := id
    Name := name
    Operations := [⟨"17", "Odbiór karty pobytu", true⟩]
    TicketCount := 40
    TicketsServed := 12
    Workplaces := 3
    AverageWaitTime := some 25
    AverageServiceTime := none
    RegisteredTickets := 40
    MaxTickets := some 60
    TicketValue := "K012"
    Active := true
    Location := "Wrocław"
    TicketsLeft := ticketsLeft
    Enabled := true }

/-- A stored row of the given identity, `tickets_left` and `created_at`. -/
def sampleRow (id : Nat) (name : String) (queueId : Int) (location : String)
    (ticketsLeft : Int) (createdAt : Nat) : Row :=
  ⟨id, insertArgs (sampleItem name queueId ticketsLeft) location "[]", createdAt⟩

/-- A world holding the given rows, before any call. -/
def sampleWorld (karty wieczory : List Row) : World :=
  { odbior_karty := karty, odbior_karty_wieczory := wieczory, calls := [], logs := [] }

/-- Collaborators: the given credentials, a post answered by `status`, no query fault,
ties resolved towards the earliest stored row, and every `INSERT` accepted with the given
`created_at` and the number of calls so far as `id`. -/
def sampleEnv (token chat : String) (status : Except String Int) (createdAt : Nat) : Env :=
  { TELEGRAM_BOT_TOKEN := token
    TELEGRAM_CHAT_ID := chat
    encodeOperations := fun _ => "[]"
    postForm := fun _ _ _ _ => status
    queryFault := fun _ => none
    tieBreak := fun _ => 0
    execInsert := fun calls _ _ => Except.ok (calls.length, createdAt) }

/-- Collaborators with both credentials set and every post answered with status 200. -/
def envConfigured : Env :=
  sampleEnv "123456:token" "42" (Except.ok 200) 50

/-- A transport that fails every post. -/
def failingPost : List Event → String → String → String → Except String Int :=
  fun _ _ _ _ => Except.error "dial tcp: i/o timeout"

/-- A `odbior_karty` table holding one earlier row of queue 1 in Wrocław. -/
def worldWithPrior (ticketsLeft : Int) (createdAt : Nat) : World :=
  sampleWorld [sampleRow 1 "odbiór karty" 1 "Wrocław" ticketsLeft createdAt] []

/-! ## Theorems: calendar gate -/

theorem isWithinWorkingHours_loaded (host : Host) (warsawTZ : Location) (now : Nat)
    (startHour endHour : Int) (hload : host.LoadLocation "Europe/Warsaw" = some warsawTZ) :
    isWithinWorkingHours host now startHour endHour =
      (decide (warsawTZ.hourOf now ≥ startHour) && decide (warsawTZ.hourOf now < endHour)) := by
  simp [isWithinWorkingHours, hload]

theorem isWeekend_loaded (host : Host) (warsawTZ : Location) (now : Nat)
    (hload : host.LoadLocation "Europe/Warsaw" = some warsawTZ) :
    isWeekend host now =
      (decide (warsawTZ.weekdayOf now = Weekday.Saturday) ||
        decide (warsawTZ.weekdayOf now = Weekday.Sunday)) := by
  simp [isWeekend, hload]

theorem tick_launch_iff (host1 host2 : Host) (startHour endHour : Int) (now1 now2 : Nat) :
    tick host1 host2 startHour endHour now1 now2 = TickAction.launch ↔
      isWithinWorkingHours host1 now1 startHour endHour = true ∧
        isWeekend host2 now2 = false := by
  unfold tick
  cases isWithinWorkingHours host1 now1 startHour endHour <;>
    cases isWeekend host2 now2 <;> simp

theorem tick_weekend_no_launch (host1 host2 : Host) (startHour endHour : Int)
    (now1 now2 : Nat) (warsaw : Location)
    (hzone : ∀ tz, host2.LoadLocation "Europe/Warsaw" = some tz → tz = warsaw)
    (hagain : host1.LoadLocation "Europe/Warsaw" ≠ none →
      host2.LoadLocation "Europe/Warsaw" ≠ none)
    (hday : warsaw.weekdayOf now2 = Weekday.Saturday ∨
      warsaw.weekdayOf now2 = Weekday.Sunday) :
    tick host1 host2 startHour endHour now1 now2 ≠ TickAction.launch := by
  intro hlaunch
  rw [tick_launch_iff] at hlaunch
  obtain ⟨hgate, hwk⟩ := hlaunch
  have h1 : host1.LoadLocation "Europe/Warsaw" ≠ none := by
    intro hnone
    simp [isWithinWorkingHours, hnone] at hgate
  cases hload : host2.LoadLocation "Europe/Warsaw" with
  | none => exact hagain h1 hload
  | some tz =>
    have htz := hzone tz hload
    subst htz
    rw [isWeekend_loaded host2 tz now2 hload] at hwk
    rcases hday with hd | hd <;> simp [hd] at hwk

/-- C2. With the Europe/Warsaw zone loaded and `h` the Warsaw hour of the clock reading,
`isWithinWorkingHours startHour endHour` is true exactly when `startHour ≤ h < endHour`;
in particular `h = endHour` is rejected, and with `startHour ≥ endHour` every hour is
rejected. -/
theorem isWithinWorkingHours_iff_half_open (host : Host) (warsawTZ : Location) (now : Nat)
    (startHour endHour h : Int)
    (hload : host.LoadLocation "Europe/Warsaw" = some warsawTZ)
    (hh : warsawTZ.hourOf now = h) :
    (isWithinWorkingHours host now startHour endHour = true ↔ startHour ≤ h ∧ h < endHour) ∧
    (h = endHour → isWithinWorkingHours host now startHour endHour = false) ∧
    (startHour ≥ endHour → isWithinWorkingHours host now startHour endHour = false) := by
  rw [isWithinWorkingHours_loaded host warsawTZ now startHour endHour hload, hh]
  refine ⟨by simp, ?_, ?_⟩
  · intro he
    simp [he]
  · intro hge
    simp only [Bool.and_eq_false_imp, decide_eq_true_eq, decide_eq_false_iff_not]
    omega

/-- Witness of C2: 09h passes the default bounds 8 and 18. -/
theorem isWithinWorkingHours_iff_half_open_witness :
    (hostWith (fixedZone 9 Weekday.Monday)).LoadLocation "Europe/Warsaw"
        = some (fixedZone 9 Weekday.Monday) ∧
    (fixedZone 9 Weekday.Monday).hourOf 0 = 9 ∧
    ((isWithinWorkingHours (hostWith (fixedZone 9 Weekday.Monday)) 0 8 18 = true ↔
        (8 : Int) ≤ 9 ∧ (9 : Int) < 18) ∧
      ((9 : Int) = 18 →
        isWithinWorkingHours (hostWith (fixedZone 9 Weekday.Monday)) 0 8 18 = false) ∧
      ((8 : Int) ≥ 18 →
        isWithinWorkingHours (hostWith (fixedZone 9 Weekday.Monday)) 0 8 18 = false)) :=
  ⟨by simp [hostWith], rfl,
    isWithinWorkingHours_iff_half_open (hostWith (fixedZone 9 Weekday.Monday))
      (fixedZone 9 Weekday.Monday) 0 8 18 9 (by simp [hostWith]) rfl⟩

/-- C3 as amended. A tick launches a cycle exactly when the hour gate passes and
`isWeekend` answers false. Provided the Europe/Warsaw zone loads in `isWeekend` whenever it
loaded in `isWithinWorkingHours` of the same tick, a launch implies that the Warsaw weekday
read by `isWeekend` is neither Saturday nor Sunday, and on Saturday and on Sunday no cycle
is launched, whatever the hour and the bounds, in a single tick and in any run of ticks. -/
theorem tick_launch_only_on_open_gate_and_weekday (startHour endHour : Int) :
    (∀ (host1 host2 : Host) (now1 now2 : Nat),
      tick host1 host2 startHour endHour now1 now2 = TickAction.launch ↔
        isWithinWorkingHours host1 now1 startHour endHour = true ∧
          isWeekend host2 now2 = false) ∧
    (∀ (host1 host2 : Host) (now1 now2 : Nat) (warsaw : Location),
      (∀ tz, host2.LoadLocation "Europe/Warsaw" = some tz → tz = warsaw) →
      (host1.LoadLocation "Europe/Warsaw" ≠ none →
        host2.LoadLocation "Europe/Warsaw" ≠ none) →
      (tick host1 host2 startHour endHour now1 now2 = TickAction.launch →
        isWithinWorkingHours host1 now1 startHour endHour = true ∧
        warsaw.weekdayOf now2 ≠ Weekday.Saturday ∧ warsaw.weekdayOf now2 ≠ Weekday.Sunday) ∧
      (warsaw.weekdayOf now2 = Weekday.Saturday ∨ warsaw.weekdayOf now2 = Weekday.Sunday →
        tick host1 host2 startHour endHour now1 now2 ≠ TickAction.launch)) ∧
    (∀ (ticks : List ((Host × Nat) × (Host × Nat))) (warsaw : Location),
      (∀ t ∈ ticks,
        (∀ tz, t.2.1.LoadLocation "Europe/Warsaw" = some tz → tz = warsaw) ∧
        (t.1.1.LoadLocation "Europe/Warsaw" ≠ none →
          t.2.1.LoadLocation "Europe/Warsaw" ≠ none) ∧
        (warsaw.weekdayOf t.2.2 = Weekday.Saturday ∨
          warsaw.weekdayOf t.2.2 = Weekday.Sunday)) →
      TickAction.launch ∉ startMonitoring startHour endHour ticks) := by
  refine ⟨fun host1 host2 now1 now2 => tick_launch_iff host1 host2 startHour endHour now1 now2,
    ?_, ?_⟩
  · intro host1 host2 now1 now2 warsaw hzone hagain
    refine ⟨?_, tick_weekend_no_launch host1 host2 startHour endHour now1 now2 warsaw
      hzone hagain⟩
    intro hlaunch
    refine ⟨((tick_launch_iff host1 host2 startHour endHour now1 now2).mp hlaunch).1, ?_, ?_⟩
    · intro hd
      exact tick_weekend_no_launch host1 host2 startHour endHour now1 now2 warsaw hzone hagain
        (Or.inl hd) hlaunch
    · intro hd
      exact tick_weekend_no_launch host1 host2 startHour endHour now1 now2 warsaw hzone hagain
        (Or.inr hd) hlaunch
  · intro ticks warsaw hall hmem
    simp only [startMonitoring, List.mem_map] at hmem
    obtain ⟨t, ht, hlaunch⟩ := hmem
    obtain ⟨hzone, hagain, hday⟩ := hall t ht
    exact tick_weekend_no_launch t.1.1 t.2.1 startHour endHour t.1.2 t.2.2 warsaw hzone hagain
      hday hlaunch

/-- Witness of C3 as amended: Saturday 10h, the zone loads in both functions, bounds 8 and
18: the tick does not launch. -/
theorem tick_launch_only_on_open_gate_and_weekday_witness :
    (∀ tz, (hostWith (fixedZone 10 Weekday.Saturday)).LoadLocation "Europe/Warsaw" = some tz →
      tz = fixedZone 10 Weekday.Saturday) ∧
    ((hostWith (fixedZone 10 Weekday.Saturday)).LoadLocation "Europe/Warsaw" ≠ none →
      (hostWith (fixedZone 10 Weekday.Saturday)).LoadLocation "Europe/Warsaw" ≠ none) ∧
    isWithinWorkingHours (hostWith (fixedZone 10 Weekday.Saturday)) 0 8 18 = true ∧
    tick (hostWith (fixedZone 10 Weekday.Saturday)) (hostWith (fixedZone 10 Weekday.Saturday))
      8 18 0 0 ≠ TickAction.launch :=
  have hzone : ∀ tz,
      (hostWith (fixedZone 10 Weekday.Saturday)).LoadLocation "Europe/Warsaw" = some tz →
      tz = fixedZone 10 Weekday.Saturday := by
    intro tz h
    simp only [hostWith, if_true, Option.some.injEq] at h
    exact h.symm
  ⟨hzone, id, by decide,
    ((tick_launch_only_on_open_gate_and_weekday 8 18).2.1
      (hostWith (fixedZone 10 Weekday.Saturday)) (hostWith (fixedZone 10 Weekday.Saturday))
      0 0 (fixedZone 10 Weekday.Saturday) hzone id).2 (Or.inl rfl)⟩

/-- Counterexample to C3 as stated. On a Saturday at 10h with bounds 8 and 18, the zone
loads in `isWithinWorkingHours` and fails to load in `isWeekend`: the hour gate passes,
`isWeekend` answers false, and the tick launches a cycle. -/
theorem tick_launches_on_saturday_when_second_load_fails :
    (fixedZone 10 Weekday.Saturday).weekdayOf 0 = Weekday.Saturday ∧
    (hostWith (fixedZone 10 Weekday.Saturday)).LoadLocation "Europe/Warsaw"
      = some (fixedZone 10 Weekday.Saturday) ∧
    hostNoZones.LoadLocation "Europe/Warsaw" = none ∧
    isWithinWorkingHours (hostWith (fixedZone 10 Weekday.Saturday)) 0 8 18 = true ∧
    isWeekend hostNoZones 0 = false ∧
    tick (hostWith (fixedZone 10 Weekday.Saturday)) hostNoZones 8 18 0 0
      = TickAction.launch ∧
    startMonitoring 8 18 [((hostWith (fixedZone 10 Weekday.Saturday), 0), (hostNoZones, 0))]
      = [TickAction.launch] := by
  refine ⟨rfl, by simp [hostWith], rfl, by decide, by decide, by decide, by decide⟩

/-- C4. When loading Europe/Warsaw fails, `isWithinWorkingHours` answers false for all
bounds and clock readings, so every tick is skipped as outside working hours and none
launches a cycle, whatever `isWeekend` then finds, although `isWeekend` answers false on
the same failure. -/
theorem timezone_failure_closes_gate (host : Host)
    (hfail : host.LoadLocation "Europe/Warsaw" = none) (startHour endHour : Int) :
    (∀ (host2 : Host) (now1 now2 : Nat),
      isWithinWorkingHours host now1 startHour endHour = false ∧
      tick host host2 startHour endHour now1 now2 = TickAction.skipOutsideHours ∧
      isWeekend host now2 = false) ∧
    (∀ ticks : List ((Host × Nat) × (Host × Nat)),
      (∀ t ∈ ticks, t.1.1 = host) →
      TickAction.launch ∉ startMonitoring startHour endHour ticks) ∧
    (∀ ticks : List ((Host × Nat) × (Host × Nat)),
      (∀ t ∈ ticks, t.1.1.LoadLocation "Europe/Warsaw" = none) →
      TickAction.launch ∉ startMonitoring startHour endHour ticks) := by
  have h1 : ∀ (h : Host), h.LoadLocation "Europe/Warsaw" = none → ∀ now1 : Nat,
      isWithinWorkingHours h now1 startHour endHour = false := by
    intro h hf now1
    simp [isWithinWorkingHours, hf]
  have h3 : ∀ ticks : List ((Host × Nat) × (Host × Nat)),
      (∀ t ∈ ticks, t.1.1.LoadLocation "Europe/Warsaw" = none) →
      TickAction.launch ∉ startMonitoring startHour endHour ticks := by
    intro ticks hall hmem
    simp only [startMonitoring, List.mem_map] at hmem
    obtain ⟨t, ht, hlaunch⟩ := hmem
    simp [tick, h1 t.1.1 (hall t ht) t.1.2] at hlaunch
  refine ⟨fun host2 now1 now2 => ⟨h1 host hfail now1, ?_, ?_⟩, ?_, h3⟩
  · simp [tick, h1 host hfail now1]
  · simp [isWeekend, hfail]
  · intro ticks hall
    apply h3
    intro t ht
    rw [hall t ht]
    exact hfail

/-- Witness of C4: a machine without zone database, bounds 0 and 24. -/
theorem timezone_failure_closes_gate_witness :
    hostNoZones.LoadLocation "Europe/Warsaw" = none ∧
    ((∀ (host2 : Host) (now1 now2 : Nat),
      isWithinWorkingHours hostNoZones now1 0 24 = false ∧
      tick hostNoZones host2 0 24 now1 now2 = TickAction.skipOutsideHours ∧
      isWeekend hostNoZones now2 = false) ∧
    (∀ ticks : List ((Host × Nat) × (Host × Nat)),
      (∀ t ∈ ticks, t.1.1 = hostNoZones) →
      TickAction.launch ∉ startMonitoring 0 24 ticks) ∧
    (∀ ticks : List ((Host × Nat) × (Host × Nat)),
      (∀ t ∈ ticks, t.1.1.LoadLocation "Europe/Warsaw" = none) →
      TickAction.launch ∉ startMonitoring 0 24 ticks)) :=
  ⟨rfl, timezone_failure_closes_gate hostNoZones rfl 0 24⟩

/-! ## Theorems: call records -/

theorem notifications_append (xs ys : List Event) :
    notifications (xs ++ ys) = notifications xs ++ notifications ys := by
  induction xs with
  | nil => rfl
  | cons e es ih => cases e <;> simp [notifications, ih]

theorem httpPosts_append (xs ys : List Event) :
    httpPosts (xs ++ ys) = httpPosts xs ++ httpPosts ys := by
  induction xs with
  | nil => rfl
  | cons e es ih => cases e <;> simp [httpPosts, ih]

theorem lookups_append (xs ys : List Event) :
    lookups (xs ++ ys) = lookups xs ++ lookups ys := by
  induction xs with
  | nil => rfl
  | cons e es ih => cases e <;> simp [lookups, ih]

theorem inserts_append (xs ys : List Event) :
    inserts (xs ++ ys) = inserts xs ++ inserts ys := by
  induction xs with
  | nil => rfl
  | cons e es ih => cases e <;> simp [inserts, ih]

theorem notifications_sendCalls (env : Env) (text : String) :
    notifications (sendCalls env text) = [text] := by
  unfold sendCalls
  split <;> simp [notifications]

/-! ## Theorems: notifier -/

theorem sendTelegramMessage_calls (env : Env) (w : World) (text : String) :
    (sendTelegramMessage env w text).1.calls = w.calls ++ sendCalls env text := by
  unfold sendTelegramMessage sendCalls
  by_cases hc : env.TELEGRAM_BOT_TOKEN = "" ∨ env.TELEGRAM_CHAT_ID = ""
  · simp [hc, World.record, World.log]
  · simp only [hc, if_false]
    split
    · simp [World.record]
    · split <;> simp [World.record]

theorem sendTelegramMessage_tables (env : Env) (w : World) (text : String) :
    (sendTelegramMessage env w text).1.odbior_karty = w.odbior_karty ∧
    (sendTelegramMessage env w text).1.odbior_karty_wieczory = w.odbior_karty_wieczory := by
  unfold sendTelegramMessage
  by_cases hc : env.TELEGRAM_BOT_TOKEN = "" ∨ env.TELEGRAM_CHAT_ID = ""
  · simp [hc, World.record, World.log]
  · simp only [hc, if_false]
    split
    · simp [World.record]
    · split <;> simp [World.record]

theorem sendAndLog_calls (env : Env) (w : World) (text : String) :
    (sendAndLog env w text).calls = w.calls ++ sendCalls env text := by
  have h := sendTelegramMessage_calls env w text
  unfold sendAndLog
  split <;> rename_i heq <;> rw [heq] at h <;> simpa [World.log] using h

theorem sendAndLog_tables (env : Env) (w : World) (text : String) :
    (sendAndLog env w text).odbior_karty = w.odbior_karty ∧
    (sendAndLog env w text).odbior_karty_wieczory = w.odbior_karty_wieczory := by
  have h := sendTelegramMessage_tables env w text
  unfold sendAndLog
  split <;> rename_i heq <;> rw [heq] at h <;> simpa [World.log] using h

/-- C8. With the bot token or the chat id empty, `sendTelegramMessage` returns nil for
every text and issues no HTTP post; in general it issues a post exactly when both are
non-empty, and then exactly one. -/
theorem sendTelegramMessage_unconfigured_noop (env : Env) (w : World) (text : String) :
    (env.TELEGRAM_BOT_TOKEN = "" ∨ env.TELEGRAM_CHAT_ID = "" →
      (sendTelegramMessage env w text).2 = none ∧
      httpPosts (sendTelegramMessage env w text).1.calls = httpPosts w.calls ∧
      (sendTelegramMessage env w text).1.calls = w.calls ++ [Event.notify text]) ∧
    (httpPosts (sendTelegramMessage env w text).1.calls ≠ httpPosts w.calls ↔
      env.TELEGRAM_BOT_TOKEN ≠ "" ∧ env.TELEGRAM_CHAT_ID ≠ "") ∧
    (env.TELEGRAM_BOT_TOKEN ≠ "" ∧ env.TELEGRAM_CHAT_ID ≠ "" →
      httpPosts (sendTelegramMessage env w text).1.calls = httpPosts w.calls ++
        [Event.httpPost ("https://api.telegram.org/bot" ++ env.TELEGRAM_BOT_TOKEN ++
          "/sendMessage") env.TELEGRAM_CHAT_ID text]) := by
  rw [sendTelegramMessage_calls, httpPosts_append]
  by_cases hc : env.TELEGRAM_BOT_TOKEN = "" ∨ env.TELEGRAM_CHAT_ID = ""
  · refine ⟨fun _ => ⟨?_, ?_, ?_⟩, ?_, ?_⟩
    · simp [sendTelegramMessage, hc]
    · simp [sendCalls, hc, httpPosts]
    · simp [sendCalls, hc]
    · simp only [sendCalls, hc, if_true, httpPosts, List.append_nil, ne_eq, not_true_eq_false,
        false_iff, not_and_or, not_not]
    · intro h
      rcases hc with h1 | h1
      · exact absurd h1 h.1
      · exact absurd h1 h.2
  · have hc2 : env.TELEGRAM_BOT_TOKEN ≠ "" ∧ env.TELEGRAM_CHAT_ID ≠ "" := by
      simpa [not_or] using hc
    refine ⟨fun h => absurd h hc, ?_, ?_⟩
    · simp [sendCalls, hc, httpPosts, hc2]
    · intro _
      simp [sendCalls, hc, httpPosts]

/-! ## Theorems: snapshot store and change detector -/

theorem queryPrevTicketsLeft_calls (env : Env) (w : World) (queueId : Int) (location : String) :
    (queryPrevTicketsLeft env w queueId location).1.calls =
      w.calls ++ [Event.selectPrev queueId location] := by
  unfold queryPrevTicketsLeft
  simp only []
  split
  · simp [World.record, World.log]
  · split
    · simp [World.record]
    · split <;> simp [World.record]

theorem queryPrevTicketsLeft_tables (env : Env) (w : World) (queueId : Int)
    (location : String) :
    (queryPrevTicketsLeft env w queueId location).1.odbior_karty = w.odbior_karty ∧
    (queryPrevTicketsLeft env w queueId location).1.odbior_karty_wieczory =
      w.odbior_karty_wieczory := by
  unfold queryPrevTicketsLeft
  simp only []
  split
  · simp [World.record, World.log]
  · split
    · simp [World.record]
    · split <;> simp [World.record]

theorem queryPrevTicketsLeft_no_match (env : Env) (w : World) (queueId : Int)
    (location : String) (hnone : matchingRows w.odbior_karty queueId location = []) :
    (queryPrevTicketsLeft env w queueId location).2.Valid = false := by
  have hsel : selectLatest env w.odbior_karty queueId location = none := by
    simp [selectLatest, hnone, newestRows]
  unfold queryPrevTicketsLeft
  simp only []
  split
  · rfl
  · simp [World.record, hsel]

theorem notifyTransitions_calls (env : Env) (w : World) (prev : NullInt64) (item : QueueItem)
    (location : String) :
    (notifyTransitions env w prev item location).calls =
      w.calls ++ transitionCalls env prev item location := by
  unfold notifyTransitions transitionCalls
  by_cases hv : prev.Valid = true
  · simp only [hv, if_true]
    by_cases h1 : prev.Int64 ≤ 0 ∧ item.TicketsLeft > 0 <;>
      by_cases h2 : prev.Int64 > 0 ∧ item.TicketsLeft ≤ 0 <;>
      simp [h1, h2, sendAndLog_calls]
  · simp [hv]

theorem notifyTransitions_tables (env : Env) (w : World) (prev : NullInt64)
    (item : QueueItem) (location : String) :
    (notifyTransitions env w prev item location).odbior_karty = w.odbior_karty ∧
    (notifyTransitions env w prev item location).odbior_karty_wieczory =
      w.odbior_karty_wieczory := by
  unfold notifyTransitions
  by_cases hv : prev.Valid = true
  · simp only [hv, if_true]
    by_cases h1 : prev.Int64 ≤ 0 ∧ item.TicketsLeft > 0 <;>
      by_cases h2 : prev.Int64 > 0 ∧ item.TicketsLeft ≤ 0 <;>
      simp [h1, h2, sendAndLog_tables]
  · simp [hv]

theorem dbExecInsert_calls (env : Env) (w : World) (t : Table) (cols : Columns) :
    (dbExecInsert env w t cols).1.calls = w.calls ++ [Event.insert t cols] := by
  unfold dbExecInsert
  simp only []
  split
  · simp [World.record]
  · cases t <;> simp [World.record, World.append]

theorem dbExecInsert_error (env : Env) (w : World) (t : Table) (cols : Columns) :
    (dbExecInsert env w t cols).2 = insertError (env.execInsert w.calls t cols) := by
  unfold dbExecInsert insertError
  simp only []
  split <;> rename_i heq <;> simp [heq]

theorem dbExecInsert_rows (env : Env) (w : World) (t : Table) (cols : Columns) :
    (dbExecInsert env w t cols).1.rows t =
      w.rows t ++ insertedRows (env.execInsert w.calls t cols) cols := by
  unfold dbExecInsert insertedRows
  simp only []
  split <;> rename_i heq
  · cases t <;> simp [heq, World.record, World.rows]
  · cases t <;> simp [heq, World.record, World.rows, World.append]

theorem dbExecInsert_other (env : Env) (w : World) (t t2 : Table) (cols : Columns)
    (hne : t2 ≠ t) : (dbExecInsert env w t cols).1.rows t2 = w.rows t2 := by
  unfold dbExecInsert
  simp only []
  split
  · cases t2 <;> simp [World.record, World.rows]
  · cases t <;> cases t2 <;> simp_all [World.record, World.rows, World.append]

/-- With `json.Marshal` succeeding, `saveOdbiorkartyEvent` is lookup, transition block,
`INSERT`. -/
theorem saveOdbiorkartyEvent_unfold (env : Env) (w : World) (item : QueueItem)
    (location : String) :
    saveOdbiorkartyEvent env w item location =
      dbExecInsert env
        (notifyTransitions env (queryPrevTicketsLeft env w item.ID location).1
          (queryPrevTicketsLeft env w item.ID location).2 item location)
        Table.odbior_karty
        (insertArgs item location (env.encodeOperations item.Operations)) := by
  simp [saveOdbiorkartyEvent, jsonMarshal]

theorem saveOdbiorkartyEvent_calls (env : Env) (w : World) (item : QueueItem)
    (location : String) :
    (saveOdbiorkartyEvent env w item location).1.calls =
      w.calls ++ [Event.selectPrev item.ID location] ++
        transitionCalls env (queryPrevTicketsLeft env w item.ID location).2 item location ++
        [Event.insert Table.odbior_karty
          (insertArgs item location (env.encodeOperations item.Operations))] := by
  rw [saveOdbiorkartyEvent_unfold, dbExecInsert_calls, notifyTransitions_calls,
    queryPrevTicketsLeft_calls]

/-- The error `saveOdbiorkartyEvent` returns is the verdict on its `INSERT`. -/
theorem saveOdbiorkartyEvent_error (env : Env) (w : World) (item : QueueItem)
    (location : String) :
    (saveOdbiorkartyEvent env w item location).2 =
      insertError (env.execInsert
        (w.calls ++ [Event.selectPrev item.ID location] ++
          transitionCalls env (queryPrevTicketsLeft env w item.ID location).2 item location)
        Table.odbior_karty
        (insertArgs item location (env.encodeOperations item.Operations))) := by
  rw [saveOdbiorkartyEvent_unfold, dbExecInsert_error, notifyTransitions_calls,
    queryPrevTicketsLeft_calls]

theorem saveOdbiorkartyEvent_rows (env : Env) (w : World) (item : QueueItem)
    (location : String) :
    (saveOdbiorkartyEvent env w item location).1.odbior_karty =
      w.odbior_karty ++ insertedRows (env.execInsert
        (w.calls ++ [Event.selectPrev item.ID location] ++
          transitionCalls env (queryPrevTicketsLeft env w item.ID location).2 item location)
        Table.odbior_karty
        (insertArgs item location (env.encodeOperations item.Operations)))
        (insertArgs item location (env.encodeOperations item.Operations)) ∧
    (saveOdbiorkartyEvent env w item location).1.odbior_karty_wieczory =
      w.odbior_karty_wieczory := by
  rw [saveOdbiorkartyEvent_unfold]
  constructor
  · have h := dbExecInsert_rows env
      (notifyTransitions env (queryPrevTicketsLeft env w item.ID location).1
        (queryPrevTicketsLeft env w item.ID location).2 item location)
      Table.odbior_karty (insertArgs item location (env.encodeOperations item.Operations))
    simp only [World.rows] at h
    rw [h, notifyTransitions_calls, queryPrevTicketsLeft_calls,
      (notifyTransitions_tables _ _ _ _ _).1, (queryPrevTicketsLeft_tables _ _ _ _).1]
  · have h := dbExecInsert_other env
      (notifyTransitions env (queryPrevTicketsLeft env w item.ID location).1
        (queryPrevTicketsLeft env w item.ID location).2 item location)
      Table.odbior_karty Table.odbior_karty_wieczory
      (insertArgs item location (env.encodeOperations item.Operations)) (by decide)
    simp only [World.rows] at h
    rw [h, (notifyTransitions_tables _ _ _ _ _).2, (queryPrevTicketsLeft_tables _ _ _ _).2]

theorem notifications_transitionCalls (env : Env) (prev : NullInt64) (item : QueueItem)
    (location : String) :
    notifications (transitionCalls env prev item location) =
      if prev.Valid = true ∧ prev.Int64 ≤ 0 ∧ item.TicketsLeft > 0 then
        [appearedMessage location item.ID item.TicketsLeft]
      else if prev.Valid = true ∧ prev.Int64 > 0 ∧ item.TicketsLeft ≤ 0 then
        [exhaustedMessage location item.ID]
      else [] := by
  unfold transitionCalls
  by_cases hv : prev.Valid = true
  · simp only [hv, if_true, true_and, notifications_append]
    by_cases h1 : prev.Int64 ≤ 0 ∧ item.TicketsLeft > 0
    · have h2 : ¬ (prev.Int64 > 0 ∧ item.TicketsLeft ≤ 0) := by omega
      simp [h1, h2, notifications_sendCalls, notifications]
    · by_cases h2 : prev.Int64 > 0 ∧ item.TicketsLeft ≤ 0
      · simp [h1, h2, notifications_sendCalls, notifications]
      · simp [h1, h2, notifications]
  · simp [hv, notifications]

theorem saveOdbiorkartyEvent_notifications (env : Env) (w : World) (item : QueueItem)
    (location : String) :
    notifications (saveOdbiorkartyEvent env w item location).1.calls =
      notifications w.calls ++
        notifications
          (transitionCalls env (queryPrevTicketsLeft env w item.ID location).2 item location) := by
  rw [saveOdbiorkartyEvent_calls]
  simp [notifications_append, notifications]

/-- C1. When the latest-record lookup returns the prior value `p`, `saveOdbiorkartyEvent`
attempts exactly one notification, the "tickets appeared" text, if `p ≤ 0` and the current
`TicketsLeft` is positive; exactly one, the "tickets finished" text, if `p > 0` and the
current `TicketsLeft` is not positive; and none for every other pair. -/
theorem saveOdbiorkartyEvent_transition_notifications (env : Env) (w : World)
    (item : QueueItem) (location : String) (p : Int)
    (hprev : (queryPrevTicketsLeft env w item.ID location).2 = ⟨p, true⟩) :
    (p ≤ 0 ∧ item.TicketsLeft > 0 →
      notifications (saveOdbiorkartyEvent env w item location).1.calls =
        notifications w.calls ++ [appearedMessage location item.ID item.TicketsLeft]) ∧
    (p > 0 ∧ item.TicketsLeft ≤ 0 →
      notifications (saveOdbiorkartyEvent env w item location).1.calls =
        notifications w.calls ++ [exhaustedMessage location item.ID]) ∧
    (¬ (p ≤ 0 ∧ item.TicketsLeft > 0) → ¬ (p > 0 ∧ item.TicketsLeft ≤ 0) →
      notifications (saveOdbiorkartyEvent env w item location).1.calls =
        notifications w.calls) := by
  rw [saveOdbiorkartyEvent_notifications, notifications_transitionCalls, hprev]
  refine ⟨fun h => ?_, fun h => ?_, fun h1 h2 => ?_⟩
  · simp [h]
  · have h1 : ¬ (p ≤ 0 ∧ item.TicketsLeft > 0) := by omega
    simp [h1, h]
  · simp [h1, h2]

/-- C5. When no row of `odbior_karty` has the identity `(item.ID, location)`,
`saveOdbiorkartyEvent` attempts no notification and posts nothing, whatever `TicketsLeft`
is; its calls are the lookup followed by the `INSERT` of the observation, and the table
gains the new row when the server accepts the `INSERT` (and is unchanged, with the error
returned, when it does not). -/
theorem saveOdbiorkartyEvent_first_observation_silent (env : Env) (w : World)
    (item : QueueItem) (location : String)
    (hnone : matchingRows w.odbior_karty item.ID location = []) :
    notifications (saveOdbiorkartyEvent env w item location).1.calls = notifications w.calls ∧
    httpPosts (saveOdbiorkartyEvent env w item location).1.calls = httpPosts w.calls ∧
    (saveOdbiorkartyEvent env w item location).1.calls =
      w.calls ++ [Event.selectPrev item.ID location,
        Event.insert Table.odbior_karty
          (insertArgs item location (env.encodeOperations item.Operations))] ∧
    (∀ id createdAt,
      env.execInsert (w.calls ++ [Event.selectPrev item.ID location]) Table.odbior_karty
          (insertArgs item location (env.encodeOperations item.Operations))
        = Except.ok (id, createdAt) →
      (saveOdbiorkartyEvent env w item location).2 = none ∧
      (saveOdbiorkartyEvent env w item location).1.odbior_karty =
        w.odbior_karty ++
          [⟨id, insertArgs item location (env.encodeOperations item.Operations), createdAt⟩]) ∧
    (∀ err,
      env.execInsert (w.calls ++ [Event.selectPrev item.ID location]) Table.odbior_karty
          (insertArgs item location (env.encodeOperations item.Operations))
        = Except.error err →
      (saveOdbiorkartyEvent env w item location).2 = some err ∧
      (saveOdbiorkartyEvent env w item location).1.odbior_karty = w.odbior_karty) := by
  have hv := queryPrevTicketsLeft_no_match env w item.ID location hnone
  have htc : transitionCalls env (queryPrevTicketsLeft env w item.ID location).2 item location
      = [] := by
    simp [transitionCalls, hv]
  have hcalls := saveOdbiorkartyEvent_calls env w item location
  have herr := saveOdbiorkartyEvent_error env w item location
  have hrows := (saveOdbiorkartyEvent_rows env w item location).1
  rw [htc] at hcalls herr hrows
  simp only [List.append_nil] at hcalls herr hrows
  refine ⟨?_, ?_, ?_, ?_, ?_⟩
  · rw [hcalls]
    simp [notifications_append, notifications]
  · rw [hcalls]
    simp [httpPosts_append, httpPosts]
  · rw [hcalls]
    simp
  · intro id createdAt hok
    rw [herr, hrows, hok]
    simp [insertError, insertedRows]
  · intro err hfail
    rw [herr, hrows, hfail]
    simp [insertError, insertedRows]

/-- C9. The last call of `saveOdbiorkartyEvent` is always the `INSERT` of the observation
and the returned error is exactly the verdict of the server on that `INSERT` (nil when it
is accepted, and then the row is in the table); replacing the outcome of the HTTP post by
any other outcome changes neither the calls made, nor the tables, nor the returned
error. -/
theorem saveOdbiorkartyEvent_returns_insert_result (env : Env) (w : World)
    (item : QueueItem) (location : String) :
    (∃ before : List Event,
      (saveOdbiorkartyEvent env w item location).1.calls =
        before ++ [Event.insert Table.odbior_karty
          (insertArgs item location (env.encodeOperations item.Operations))] ∧
      (∀ err,
        env.execInsert before Table.odbior_karty
            (insertArgs item location (env.encodeOperations item.Operations))
          = Except.error err →
        (saveOdbiorkartyEvent env w item location).2 = some err ∧
        (saveOdbiorkartyEvent env w item location).1.odbior_karty = w.odbior_karty) ∧
      (∀ id createdAt,
        env.execInsert before Table.odbior_karty
            (insertArgs item location (env.encodeOperations item.Operations))
          = Except.ok (id, createdAt) →
        (saveOdbiorkartyEvent env w item location).2 = none ∧
        (saveOdbiorkartyEvent env w item location).1.odbior_karty =
          w.odbior_karty ++
            [⟨id, insertArgs item location (env.encodeOperations item.Operations),
              createdAt⟩])) ∧
    (∀ outcome : List Event → String → String → String → Except String Int,
      (saveOdbiorkartyEvent { env with postForm := outcome } w item location).2 =
        (saveOdbiorkartyEvent env w item location).2 ∧
      (saveOdbiorkartyEvent { env with postForm := outcome } w item location).1.calls =
        (saveOdbiorkartyEvent env w item location).1.calls ∧
      (saveOdbiorkartyEvent { env with postForm := outcome } w item location).1.odbior_karty =
        (saveOdbiorkartyEvent env w item location).1.odbior_karty ∧
      (saveOdbiorkartyEvent { env with postForm := outcome } w item location).1.odbior_karty_wieczory =
        (saveOdbiorkartyEvent env w item location).1.odbior_karty_wieczory) := by
  constructor
  · refine ⟨w.calls ++ [Event.selectPrev item.ID location] ++
      transitionCalls env (queryPrevTicketsLeft env w item.ID location).2 item location,
      saveOdbiorkartyEvent_calls env w item location, ?_, ?_⟩
    · intro err hfail
      rw [saveOdbiorkartyEvent_error, (saveOdbiorkartyEvent_rows env w item location).1, hfail]
      simp [insertError, insertedRows]
    · intro id createdAt hok
      rw [saveOdbiorkartyEvent_error, (saveOdbiorkartyEvent_rows env w item location).1, hok]
      simp [insertError, insertedRows]
  · intro outcome
    have hq : queryPrevTicketsLeft { env with postForm := outcome } w item.ID location =
        queryPrevTicketsLeft env w item.ID location := rfl
    have ht : ∀ prev, transitionCalls { env with postForm := outcome } prev item location =
        transitionCalls env prev item location := fun _ => rfl
    refine ⟨?_, ?_, ?_, ?_⟩
    · rw [saveOdbiorkartyEvent_error, saveOdbiorkartyEvent_error, hq, ht]
    · rw [saveOdbiorkartyEvent_calls, saveOdbiorkartyEvent_calls, hq, ht]
    · rw [(saveOdbiorkartyEvent_rows _ w item location).1,
        (saveOdbiorkartyEvent_rows env w item location).1, hq, ht]
    · rw [(saveOdbiorkartyEvent_rows _ w item location).2,
        (saveOdbiorkartyEvent_rows env w item location).2]

/-! ## Theorems: cycle -/

theorem saveOdbiorkartyWieczoryEvent_unfold (env : Env) (w : World) (item : QueueItem)
    (location : String) :
    saveOdbiorkartyWieczoryEvent env w item location =
      dbExecInsert env w Table.odbior_karty_wieczory
        (insertArgs item location (env.encodeOperations item.Operations)) := by
  simp [saveOdbiorkartyWieczoryEvent, jsonMarshal]

theorem processItem_unmonitored (env : Env) (location : String) (w : World) (item : QueueItem)
    (h1 : item.Name ≠ "odbiór karty") (h2 : item.Name ≠ "Odbiór karty - wieczory") :
    processItem env location w item = w := by
  simp [processItem, h1, h2]

theorem processItem_karty (env : Env) (location : String) (w : World) (item : QueueItem)
    (h : item.Name = "odbiór karty") :
    (processItem env location w item).calls =
      (saveOdbiorkartyEvent env w item location).1.calls ∧
    (processItem env location w item).odbior_karty =
      (saveOdbiorkartyEvent env w item location).1.odbior_karty ∧
    (processItem env location w item).odbior_karty_wieczory =
      (saveOdbiorkartyEvent env w item location).1.odbior_karty_wieczory := by
  have h2 : ¬ (item.Name = "Odbiór karty - wieczory") := by
    rw [h]
    decide
  unfold processItem
  simp only [eq_true h, eq_false h2, if_true, if_false]
  split <;> rename_i heq <;> simp [heq, World.log]

theorem processItem_wieczory (env : Env) (location : String) (w : World) (item : QueueItem)
    (h : item.Name = "Odbiór karty - wieczory") :
    (processItem env location w item).calls =
      (saveOdbiorkartyWieczoryEvent env w item location).1.calls ∧
    (processItem env location w item).odbior_karty =
      (saveOdbiorkartyWieczoryEvent env w item location).1.odbior_karty ∧
    (processItem env location w item).odbior_karty_wieczory =
      (saveOdbiorkartyWieczoryEvent env w item location).1.odbior_karty_wieczory := by
  have h1 : ¬ (item.Name = "odbiór karty") := by
    rw [h]
    decide
  unfold processItem
  simp only [eq_true h, eq_false h1, if_true, if_false]
  split <;> rename_i heq <;> simp [heq, World.log]

theorem monitored_iff (item : QueueItem) :
    monitored item = true ↔
      item.Name = "odbiór karty" ∨ item.Name = "Odbiór karty - wieczory" := by
  simp [monitored]

theorem foldl_processItem_filter (env : Env) (location : String) (items : List QueueItem)
    (w : World) :
    items.foldl (processItem env location) w =
      (items.filter monitored).foldl (processItem env location) w := by
  induction items generalizing w with
  | nil => rfl
  | cons item rest ih =>
    by_cases hm : monitored item = true
    · simp [List.filter_cons, hm, ih]
    · have hne : item.Name ≠ "odbiór karty" ∧ item.Name ≠ "Odbiór karty - wieczory" := by
        rw [monitored_iff] at hm
        exact not_or.mp hm
      simp [List.filter_cons, hm, processItem_unmonitored env location w item hne.1 hne.2, ih]

theorem processResult_filter (env : Env) (result : List (String × List QueueItem)) (w : World) :
    processResult env w result =
      processResult env w (result.map (fun entry => (entry.1, entry.2.filter monitored))) := by
  unfold processResult
  induction result generalizing w with
  | nil => rfl
  | cons entry rest ih =>
    simp only [List.foldl_cons, List.map_cons]
    rw [ih, foldl_processItem_filter]

theorem inserts_transitionCalls (env : Env) (prev : NullInt64) (item : QueueItem)
    (location : String) : inserts (transitionCalls env prev item location) = [] := by
  have hs : ∀ text, inserts (sendCalls env text) = [] := by
    intro text
    unfold sendCalls
    split <;> simp [inserts]
  have hi : ∀ (c : Prop) [Decidable c] (text : String),
      inserts (if c then sendCalls env text else []) = [] := by
    intro c _ text
    split
    · exact hs text
    · rfl
  unfold transitionCalls
  split
  · rw [inserts_append, hi, hi]
    rfl
  · rfl

/-- C6. An item whose name is neither "odbiór karty" nor "Odbiór karty - wieczory" leaves
the world of the cycle untouched (no row, no lookup, no notification), so a cycle acts as
if such items had not been fetched; the test is string equality, so names differing only
in case or spacing are discarded too; and an item matching one name leaves the other
table unchanged and issues exactly one `INSERT`, into the table of its own stream. -/
theorem fetchAndSaveData_discards_unmonitored (env : Env) :
    (∀ (w : World) (location : String) (item : QueueItem),
      item.Name ≠ "odbiór karty" → item.Name ≠ "Odbiór karty - wieczory" →
      processItem env location w item = w) ∧
    (∀ (w : World) (result : List (String × List QueueItem)),
      fetchAndSaveData env w (Except.ok result) =
        fetchAndSaveData env w
          (Except.ok (result.map (fun entry => (entry.1, entry.2.filter monitored))))) ∧
    (∀ item : QueueItem, monitored item = true ↔
      item.Name = "odbiór karty" ∨ item.Name = "Odbiór karty - wieczory") ∧
    (∀ (w : World) (location : String) (item : QueueItem),
      item.Name = "Odbiór karty" ∨ item.Name = "ODBIÓR KARTY" ∨ item.Name = "odbiór karty " ∨
        item.Name = "odbiór karty - wieczory" ∨ item.Name = "Odbiór karty – wieczory" →
      processItem env location w item = w) ∧
    (∀ (w : World) (location : String) (item : QueueItem),
      item.Name = "odbiór karty" →
      (processItem env location w item).odbior_karty_wieczory = w.odbior_karty_wieczory ∧
      inserts (processItem env location w item).calls =
        inserts w.calls ++ [Event.insert Table.odbior_karty
          (insertArgs item location (env.encodeOperations item.Operations))]) ∧
    (∀ (w : World) (location : String) (item : QueueItem),
      item.Name = "Odbiór karty - wieczory" →
      (processItem env location w item).odbior_karty = w.odbior_karty ∧
      inserts (processItem env location w item).calls =
        inserts w.calls ++ [Event.insert Table.odbior_karty_wieczory
          (insertArgs item location (env.encodeOperations item.Operations))]) := by
  refine ⟨fun w location item h1 h2 => processItem_unmonitored env location w item h1 h2,
    ?_, monitored_iff, ?_, ?_, ?_⟩
  · intro w result
    simp only [fetchAndSaveData]
    rw [processResult_filter]
  · intro w location item h
    apply processItem_unmonitored
    · rcases h with h | h | h | h | h <;> rw [h] <;> decide
    · rcases h with h | h | h | h | h <;> rw [h] <;> decide
  · intro w location item h
    obtain ⟨hc, _, hw⟩ := processItem_karty env location w item h
    rw [hw, hc, (saveOdbiorkartyEvent_rows env w item location).2, saveOdbiorkartyEvent_calls]
    simp [inserts_append, inserts_transitionCalls, inserts]
  · intro w location item h
    obtain ⟨hc, hk, _⟩ := processItem_wieczory env location w item h
    rw [hk, hc, saveOdbiorkartyWieczoryEvent_unfold, dbExecInsert_calls]
    have ho := dbExecInsert_other env w Table.odbior_karty_wieczory Table.odbior_karty
      (insertArgs item location (env.encodeOperations item.Operations)) (by decide)
    simp only [World.rows] at ho
    rw [ho]
    simp [inserts_append, inserts]

/-- C7. For an item named "Odbiór karty - wieczory" the cycle makes exactly one call, the
`INSERT` of the observation into `odbior_karty_wieczory`: no lookup, no notification and
no post, whatever the two tables hold; `odbior_karty` is unchanged and
`odbior_karty_wieczory` gains the new row when the server accepts the `INSERT` (and is
unchanged when it does not). -/
theorem evening_observation_saved_without_detection (env : Env) (location : String)
    (w : World) (item : QueueItem) (hname : item.Name = "Odbiór karty - wieczory") :
    (processItem env location w item).calls =
      w.calls ++ [Event.insert Table.odbior_karty_wieczory
        (insertArgs item location (env.encodeOperations item.Operations))] ∧
    notifications (processItem env location w item).calls = notifications w.calls ∧
    lookups (processItem env location w item).calls = lookups w.calls ∧
    httpPosts (processItem env location w item).calls = httpPosts w.calls ∧
    (processItem env location w item).odbior_karty = w.odbior_karty ∧
    (∀ id createdAt,
      env.execInsert w.calls Table.odbior_karty_wieczory
          (insertArgs item location (env.encodeOperations item.Operations))
        = Except.ok (id, createdAt) →
      (processItem env location w item).odbior_karty_wieczory =
        w.odbior_karty_wieczory ++
          [⟨id, insertArgs item location (env.encodeOperations item.Operations), createdAt⟩]) ∧
    (∀ err,
      env.execInsert w.calls Table.odbior_karty_wieczory
          (insertArgs item location (env.encodeOperations item.Operations))
        = Except.error err →
      (processItem env location w item).odbior_karty_wieczory = w.odbior_karty_wieczory) := by
  obtain ⟨hc, hk, hw⟩ := processItem_wieczory env location w item hname
  have ho := dbExecInsert_other env w Table.odbior_karty_wieczory Table.odbior_karty
    (insertArgs item location (env.encodeOperations item.Operations)) (by decide)
  have hr := dbExecInsert_rows env w Table.odbior_karty_wieczory
    (insertArgs item location (env.encodeOperations item.Operations))
  simp only [World.rows] at ho hr
  rw [hc, hk, hw, saveOdbiorkartyWieczoryEvent_unfold, dbExecInsert_calls, ho, hr]
  refine ⟨rfl, ?_, ?_, ?_, rfl, ?_, ?_⟩
  · simp [notifications_append, notifications]
  · simp [lookups_append, lookups]
  · simp [httpPosts_append, httpPosts]
  · intro id createdAt hok
    simp [hok, insertedRows]
  · intro err hfail
    simp [hfail, insertedRows]

/-! ## Theorems: latest-record lookup after a save -/

theorem newestRows_append_newer (rows : List Row) (r : Row)
    (h : ∀ x ∈ rows, x.created_at < r.created_at) : newestRows (rows ++ [r]) = [r] := by
  unfold newestRows
  rw [List.filter_append]
  have h1 : rows.filter
      (fun x => (rows ++ [r]).all (fun r2 => decide (r2.created_at ≤ x.created_at))) = [] := by
    rw [List.filter_eq_nil_iff]
    intro x hx hall
    rw [List.all_eq_true] at hall
    have hle := hall r (by simp)
    have hlt := h x hx
    simp only [decide_eq_true_eq] at hle
    omega
  have h2 : [r].filter
      (fun x => (rows ++ [r]).all (fun r2 => decide (r2.created_at ≤ x.created_at))) = [r] := by
    have hall : (rows ++ [r]).all (fun r2 => decide (r2.created_at ≤ r.created_at)) = true := by
      rw [List.all_eq_true]
      intro x hx
      rw [List.mem_append] at hx
      simp only [decide_eq_true_eq]
      rcases hx with hx | hx
      · exact Nat.le_of_lt (h x hx)
      · simp only [List.mem_singleton] at hx
        rw [hx]
    simp only [List.filter_cons, List.filter_nil, hall, if_true]
  rw [h1, h2]
  rfl

theorem selectLatest_append_newer (env : Env) (rows : List Row) (r : Row) (queueId : Int)
    (location : String) (hid : r.cols.queue_id = queueId) (hloc : r.cols.location = location)
    (h : ∀ x ∈ rows, x.cols.queue_id = queueId → x.cols.location = location →
      x.created_at < r.created_at) :
    selectLatest env (rows ++ [r]) queueId location = some r := by
  have hm : matchingRows (rows ++ [r]) queueId location =
      matchingRows rows queueId location ++ [r] := by
    simp [matchingRows, List.filter_append, List.filter_cons, hid, hloc]
  have hn : newestRows (matchingRows rows queueId location ++ [r]) = [r] := by
    apply newestRows_append_newer
    intro x hx
    simp only [matchingRows, List.mem_filter, Bool.and_eq_true, decide_eq_true_eq] at hx
    exact h x hx.1 hx.2.1 hx.2.2
  simp [selectLatest, hm, hn, Nat.mod_one]

/-- C10 as amended. When `saveOdbiorkartyEvent` has appended the row `r` and every earlier
row of the same `(queue_id, location)` carries a `created_at` strictly before that of `r`,
then `r` holds the column values of the observation, with the `location` passed to the
save, and the latest-record lookup for that identity selects `r` under every tie-break,
so a lookup that meets no query fault scans the `TicketsLeft` just inserted. -/
theorem latest_lookup_returns_inserted_when_newest (env : Env) (w : World) (item : QueueItem)
    (location : String) (r : Row)
    (hins : (saveOdbiorkartyEvent env w item location).1.odbior_karty = w.odbior_karty ++ [r])
    (hnewest : ∀ x ∈ w.odbior_karty, x.cols.queue_id = item.ID →
      x.cols.location = location → x.created_at < r.created_at) :
    r.cols = insertArgs item location (env.encodeOperations item.Operations) ∧
    (saveOdbiorkartyEvent env w item location).2 = none ∧
    (∀ env2 : Env,
      selectLatest env2 (saveOdbiorkartyEvent env w item location).1.odbior_karty item.ID
        location = some r ∧
      (env2.queryFault (saveOdbiorkartyEvent env w item location).1.calls = none →
        (queryPrevTicketsLeft env2 (saveOdbiorkartyEvent env w item location).1 item.ID
          location).2 = ⟨item.TicketsLeft, true⟩)) := by
  have hrows := (saveOdbiorkartyEvent_rows env w item location).1
  have herr := saveOdbiorkartyEvent_error env w item location
  rw [hins] at hrows
  have hone := List.append_cancel_left hrows
  cases hv : env.execInsert
      (w.calls ++ [Event.selectPrev item.ID location] ++
        transitionCalls env (queryPrevTicketsLeft env w item.ID location).2 item location)
      Table.odbior_karty (insertArgs item location (env.encodeOperations item.Operations)) with
  | error err =>
    rw [hv] at hone
    simp [insertedRows] at hone
  | ok assigned =>
    rw [hv] at hone herr
    simp only [insertedRows, List.cons.injEq, and_true] at hone
    have hcols : r.cols = insertArgs item location (env.encodeOperations item.Operations) := by
      rw [hone]
    have hsel : ∀ env2 : Env, selectLatest env2 (w.odbior_karty ++ [r]) item.ID location
        = some r := by
      intro env2
      apply selectLatest_append_newer env2 w.odbior_karty r item.ID location
      · rw [hcols]
        rfl
      · rw [hcols]
        rfl
      · exact hnewest
    refine ⟨hcols, ?_, ?_⟩
    · rw [herr]
      rfl
    · intro env2
      rw [hins]
      refine ⟨hsel env2, ?_⟩
      intro hq
      have htl : r.cols.tickets_left = some item.TicketsLeft := by
        rw [hcols]
        rfl
      unfold queryPrevTicketsLeft
      simp only [hq, World.record, hins, hsel env2, htl]

/-! ## Instances at concrete inputs -/

/-- Witness of C1: prior 0 and current 5 give one "appeared" text, prior 5 and current 0
one "finished" text, prior 3 and current 7 none. -/
theorem saveOdbiorkartyEvent_transition_notifications_witness :
    ((queryPrevTicketsLeft envConfigured (worldWithPrior 0 10) 1 "Wrocław").2 = ⟨0, true⟩ ∧
      notifications (saveOdbiorkartyEvent envConfigured (worldWithPrior 0 10)
        (sampleItem "odbiór karty" 1 5) "Wrocław").1.calls =
          [appearedMessage "Wrocław" 1 5]) ∧
    ((queryPrevTicketsLeft envConfigured (worldWithPrior 5 10) 1 "Wrocław").2 = ⟨5, true⟩ ∧
      notifications (saveOdbiorkartyEvent envConfigured (worldWithPrior 5 10)
        (sampleItem "odbiór karty" 1 0) "Wrocław").1.calls =
          [exhaustedMessage "Wrocław" 1]) ∧
    ((queryPrevTicketsLeft envConfigured (worldWithPrior 3 10) 1 "Wrocław").2 = ⟨3, true⟩ ∧
      notifications (saveOdbiorkartyEvent envConfigured (worldWithPrior 3 10)
        (sampleItem "odbiór karty" 1 7) "Wrocław").1.calls = []) :=
  ⟨⟨by decide,
      (saveOdbiorkartyEvent_transition_notifications envConfigured (worldWithPrior 0 10)
        (sampleItem "odbiór karty" 1 5) "Wrocław" 0 (by decide)).1 ⟨by decide, by decide⟩⟩,
    ⟨by decide,
      (saveOdbiorkartyEvent_transition_notifications envConfigured (worldWithPrior 5 10)
        (sampleItem "odbiór karty" 1 0) "Wrocław" 5 (by decide)).2.1 ⟨by decide, by decide⟩⟩,
    ⟨by decide,
      (saveOdbiorkartyEvent_transition_notifications envConfigured (worldWithPrior 3 10)
        (sampleItem "odbiór karty" 1 7) "Wrocław" 3 (by decide)).2.2 (by decide) (by decide)⟩⟩

/-- Witness of C5: queue 1 was seen in Wrocław only; its first observation in Legnica,
with 5 tickets left, sends nothing and is appended. -/
theorem saveOdbiorkartyEvent_first_observation_silent_witness :
    matchingRows (worldWithPrior 0 10).odbior_karty
      (sampleItem "odbiór karty" 1 5).ID "Legnica" = [] ∧
    notifications (saveOdbiorkartyEvent envConfigured (worldWithPrior 0 10)
      (sampleItem "odbiór karty" 1 5) "Legnica").1.calls = [] ∧
    (saveOdbiorkartyEvent envConfigured (worldWithPrior 0 10)
      (sampleItem "odbiór karty" 1 5) "Legnica").1.odbior_karty =
        [sampleRow 1 "odbiór karty" 1 "Wrocław" 0 10,
          sampleRow 1 "odbiór karty" 1 "Legnica" 5 50] :=
  ⟨by decide,
    (saveOdbiorkartyEvent_first_observation_silent envConfigured (worldWithPrior 0 10)
      (sampleItem "odbiór karty" 1 5) "Legnica" (by decide)).1,
    ((saveOdbiorkartyEvent_first_observation_silent envConfigured (worldWithPrior 0 10)
      (sampleItem "odbiór karty" 1 5) "Legnica" (by decide)).2.2.2.1 1 50 rfl).2⟩

/-- Witness of C7: the evening table holds a row with no tickets left; an evening
observation with 5 left is appended and nothing else happens. -/
theorem evening_observation_saved_without_detection_witness :
    (sampleItem "Odbiór karty - wieczory" 2 5).Name = "Odbiór karty - wieczory" ∧
    (processItem envConfigured "Wrocław"
      (sampleWorld [] [sampleRow 1 "Odbiór karty - wieczory" 2 "Wrocław" 0 10])
      (sampleItem "Odbiór karty - wieczory" 2 5)).calls =
        [Event.insert Table.odbior_karty_wieczory
          (insertArgs (sampleItem "Odbiór karty - wieczory" 2 5) "Wrocław" "[]")] ∧
    (processItem envConfigured "Wrocław"
      (sampleWorld [] [sampleRow 1 "Odbiór karty - wieczory" 2 "Wrocław" 0 10])
      (sampleItem "Odbiór karty - wieczory" 2 5)).odbior_karty_wieczory =
        [sampleRow 1 "Odbiór karty - wieczory" 2 "Wrocław" 0 10,
          sampleRow 0 "Odbiór karty - wieczory" 2 "Wrocław" 5 50] :=
  ⟨rfl,
    (evening_observation_saved_without_detection envConfigured "Wrocław"
      (sampleWorld [] [sampleRow 1 "Odbiór karty - wieczory" 2 "Wrocław" 0 10])
      (sampleItem "Odbiór karty - wieczory" 2 5) rfl).1,
    (evening_observation_saved_without_detection envConfigured "Wrocław"
      (sampleWorld [] [sampleRow 1 "Odbiór karty - wieczory" 2 "Wrocław" 0 10])
      (sampleItem "Odbiór karty - wieczory" 2 5) rfl).2.2.2.2.2.1 0 50 rfl⟩

/-- Witness of C8: with an empty bot token the call returns nil and posts nothing. -/
theorem sendTelegramMessage_unconfigured_noop_witness :
    (sampleEnv "" "42" (Except.ok 200) 50).TELEGRAM_BOT_TOKEN = "" ∧
    (sendTelegramMessage (sampleEnv "" "42" (Except.ok 200) 50) (sampleWorld [] [])
      "Starting duw queue monitoring").2 = none ∧
    httpPosts (sendTelegramMessage (sampleEnv "" "42" (Except.ok 200) 50) (sampleWorld [] [])
      "Starting duw queue monitoring").1.calls = [] :=
  ⟨rfl,
    ((sendTelegramMessage_unconfigured_noop (sampleEnv "" "42" (Except.ok 200) 50)
      (sampleWorld [] []) "Starting duw queue monitoring").1 (Or.inl rfl)).1,
    ((sendTelegramMessage_unconfigured_noop (sampleEnv "" "42" (Except.ok 200) 50)
      (sampleWorld [] []) "Starting duw queue monitoring").1 (Or.inl rfl)).2.1⟩

/-- Witness of C9: prior 5, current 0, and a transport that fails: the "finished" text is
attempted, the post fails, and the save returns what it returns when the post succeeds,
which is nil. -/
theorem saveOdbiorkartyEvent_returns_insert_result_witness :
    (sendTelegramMessage { envConfigured with postForm := failingPost } (worldWithPrior 5 10)
      (exhaustedMessage "Wrocław" 1)).2 = some "dial tcp: i/o timeout" ∧
    (saveOdbiorkartyEvent { envConfigured with postForm := failingPost } (worldWithPrior 5 10)
      (sampleItem "odbiór karty" 1 0) "Wrocław").2 =
      (saveOdbiorkartyEvent envConfigured (worldWithPrior 5 10)
        (sampleItem "odbiór karty" 1 0) "Wrocław").2 ∧
    (saveOdbiorkartyEvent envConfigured (worldWithPrior 5 10)
      (sampleItem "odbiór karty" 1 0) "Wrocław").2 = none :=
  ⟨by decide,
    ((saveOdbiorkartyEvent_returns_insert_result envConfigured (worldWithPrior 5 10)
      (sampleItem "odbiór karty" 1 0) "Wrocław").2 failingPost).1,
    by decide⟩

/-- Witness of C10 as amended: the earlier row dates from 10, the new one from 50. -/
theorem latest_lookup_returns_inserted_when_newest_witness :
    (saveOdbiorkartyEvent envConfigured (worldWithPrior 2 10)
      (sampleItem "odbiór karty" 1 0) "Wrocław").1.odbior_karty =
        (worldWithPrior 2 10).odbior_karty ++ [sampleRow 3 "odbiór karty" 1 "Wrocław" 0 50] ∧
    (∀ x ∈ (worldWithPrior 2 10).odbior_karty,
      x.cols.queue_id = (sampleItem "odbiór karty" 1 0).ID → x.cols.location = "Wrocław" →
      x.created_at < (sampleRow 3 "odbiór karty" 1 "Wrocław" 0 50).created_at) ∧
    (queryPrevTicketsLeft envConfigured
      (saveOdbiorkartyEvent envConfigured (worldWithPrior 2 10)
        (sampleItem "odbiór karty" 1 0) "Wrocław").1 1 "Wrocław").2 = ⟨0, true⟩ :=
  ⟨by decide, by decide,
    ((latest_lookup_returns_inserted_when_newest envConfigured (worldWithPrior 2 10)
      (sampleItem "odbiór karty" 1 0) "Wrocław" (sampleRow 3 "odbiór karty" 1 "Wrocław" 0 50)
      (by decide) (by decide)).2.2 envConfigured).2 rfl⟩

/-- Counterexample to C10 as stated. The store holds a row of queue 1 in Wrocław with 2
tickets left; an observation with 0 left is saved and the `INSERT` succeeds. When the
earlier row carries the later `created_at` (100 against 50), and likewise when both carry
the same `created_at` and the server lists the earlier row first, the latest-record lookup
for that identity still scans 2, not the 0 just inserted. -/
theorem latest_lookup_can_return_earlier_record :
    (sampleItem "odbiór karty" 1 0).TicketsLeft = 0 ∧
    ((saveOdbiorkartyEvent envConfigured (worldWithPrior 2 100)
        (sampleItem "odbiór karty" 1 0) "Wrocław").2 = none ∧
      (saveOdbiorkartyEvent envConfigured (worldWithPrior 2 100)
        (sampleItem "odbiór karty" 1 0) "Wrocław").1.odbior_karty =
          [sampleRow 1 "odbiór karty" 1 "Wrocław" 2 100,
            sampleRow 3 "odbiór karty" 1 "Wrocław" 0 50] ∧
      (queryPrevTicketsLeft envConfigured
        (saveOdbiorkartyEvent envConfigured (worldWithPrior 2 100)
          (sampleItem "odbiór karty" 1 0) "Wrocław").1 1 "Wrocław").2 = ⟨2, true⟩) ∧
    ((saveOdbiorkartyEvent envConfigured (worldWithPrior 2 50)
        (sampleItem "odbiór karty" 1 0) "Wrocław").2 = none ∧
      (saveOdbiorkartyEvent envConfigured (worldWithPrior 2 50)
        (sampleItem "odbiór karty" 1 0) "Wrocław").1.odbior_karty =
          [sampleRow 1 "odbiór karty" 1 "Wrocław" 2 50,
            sampleRow 3 "odbiór karty" 1 "Wrocław" 0 50] ∧
      (queryPrevTicketsLeft envConfigured
        (saveOdbiorkartyEvent envConfigured (worldWithPrior 2 50)
          (sampleItem "odbiór karty" 1 0) "Wrocław").1 1 "Wrocław").2 = ⟨2, true⟩) := by
  refine ⟨rfl, ⟨?_, ?_, ?_⟩, ⟨?_, ?_, ?_⟩⟩ <;> decide

end KolejkaDuw
